import Mathlib

/-!
# OAuth-integrated customer management API: token lifecycle

A shallow embedding of `src/server.js`, `src/middleware/authenticate.js` and
`src/models/user.js`.

Every handler is an `async` function that talks to three outside parties: the
clock, the identity provider (HTTPS) and the user repository (Mongoose).  The
embedding makes each handler a pure function of the values those parties
answer with: the clock readings, the provider results and the repository
contents are arguments, and the result is the request state after the
handler, including the ordered trace of everything the handler did (outbound
requests, repository calls, the response it sent, the call to `next`).
One request is run at a time; interleavings of several requests are not
modelled, and neither is an outbound request that never completes.

Between two requests the session lives in the session store.  `server.js`
24-30 sets up `express-session` without a `store`, so the snapshot a guarded
route starts from is the JSON text of the object an earlier request left in
`req.session.user`, parsed again: its dates are ISO strings, not `Date`
objects (`SessionUser.fromStore`).

Numbers are integers or NaN (`Option Int`, `none` being NaN): clock readings
and token lifetimes are integer valued, and integer arithmetic on doubles is
exact in the range used here.  A JSON field of a provider response is either
absent (`none`, the JavaScript `undefined`) or present with the type the
provider documents for it.
-/

namespace OAuthApi

/-! ## JavaScript built-ins used by the handlers -/

/-- A JavaScript number restricted to the integers, `none` standing for NaN. -/
abbrev JSNumber := Option Int

/-- A JavaScript `Date`: its time value in milliseconds, `none` for an
Invalid Date. -/
abbrev JSDate := Option Int

/-- The largest time value a `Date` can hold (ECMAScript TimeClip bound). -/
def maxTimeValue : Int := 8640000000000000

/-- Reading `new Date(v)` for a number `v`: NaN and values beyond the TimeClip
bound give an Invalid Date. -/
def newDate (v : JSNumber) : JSDate :=
  match v with
  | none => none
  | some t => if -maxTimeValue ≤ t ∧ t ≤ maxTimeValue then some t else none

/-- Reading `ToNumber(v)` for a numeric JSON field: an absent field is
`undefined`, whose number value is NaN. -/
def toNumber (v : Option Int) : JSNumber := v

/-- JavaScript `a + b` on numbers. -/
def jsAdd (a b : JSNumber) : JSNumber :=
  match a, b with
  | some x, some y => some (x + y)
  | _, _ => none

/-- JavaScript `a * b` on numbers. -/
def jsMul (a b : JSNumber) : JSNumber :=
  match a, b with
  | some x, some y => some (x * y)
  | _, _ => none

/-- The value of a date property of the object in `req.session.user`: a `Date`
object, the ISO text `new Date(t).toISOString()` of a date, JSON `null`, or
nothing (`undefined`). -/
inductive DateValue where
  | date (d : JSDate)
  | isoString (t : Int)
  | null
  | undefined
deriving DecidableEq, Repr

/-- The point in time a date property stands for, if it stands for one. -/
def DateValue.timeValue (v : DateValue) : Option Int :=
  match v with
  | .date d => d
  | .isoString t => some t
  | .null => none
  | .undefined => none

/-- Reading `JSON.parse(JSON.stringify(v))` for a date property: a `Date`
becomes its ISO string, an Invalid Date becomes `null`, a string and `null`
stay, and a property that is `undefined` is left out. -/
def DateValue.toJSON (v : DateValue) : DateValue :=
  match v with
  | .date (some t) => .isoString t
  | .date none => .null
  | .isoString t => .isoString t
  | .null => .null
  | .undefined => .undefined

/-- Reading `new Date() > v`, the clock reading being `now`: the `Date` on the
left is converted to its time value and the right operand to a number, and a
comparison with NaN is false.  A `Date` gives its time value (NaN when
invalid), the ISO text of a date is no numeric literal and gives NaN, `null`
gives 0 and `undefined` gives NaN. -/
def dateGt (now : Int) (v : DateValue) : Bool :=
  match v with
  | .date (some e) => decide (e < now)
  | .date none => false
  | .isoString _ => false
  | .null => decide (0 < now)
  | .undefined => false

/-! ### `querystring.stringify` -/

/-- Characters `querystring.escape` leaves as they are: letters, digits and
`! - . _ ~ * ( )` and the apostrophe. -/
def noEscape (c : Char) : Bool :=
  c.isAlphanum || c.toNat ∈ [33, 39, 40, 41, 42, 45, 46, 95, 126]

/-- Upper-case hexadecimal digit of a value below 16. -/
def hexDigit (n : Nat) : Char :=
  if n < 10 then Char.ofNat (48 + n) else Char.ofNat (55 + n)

/-- The text `%XX` for one byte. -/
def hexByte (b : Nat) : List Char :=
  [Char.ofNat 37, hexDigit (b / 16 % 16), hexDigit (b % 16)]

/-- UTF-8 bytes of a code point. -/
def utf8Bytes (c : Nat) : List Nat :=
  if c < 128 then [c]
  else if c < 2048 then [192 + c / 64, 128 + c % 64]
  else if c < 65536 then [224 + c / 4096, 128 + c / 64 % 64, 128 + c % 64]
  else [240 + c / 262144, 128 + c / 4096 % 64, 128 + c / 64 % 64, 128 + c % 64]

/-- Percent-encoding of one character. -/
def escapeChar (c : Char) : List Char :=
  if noEscape c then [c] else (utf8Bytes c.toNat).flatMap hexByte

/-- Reading `querystring.escape(s)`. -/
def qsEscape (s : List Char) : List Char :=
  s.flatMap escapeChar

/-- Reading `stringifyPrimitive`: a string is itself, `undefined` is the
empty string. -/
def stringifyPrimitive (v : Option String) : List Char :=
  match v with
  | some s => s.data
  | none => []

/-- One `key=value` pair of a query string. -/
def qsPair (kv : String × Option String) : List Char :=
  qsEscape kv.1.data ++ Char.ofNat 61 :: qsEscape (stringifyPrimitive kv.2)

/-- Reading `querystring.stringify(obj)` for an object given as its list of
properties in insertion order: the escaped pairs joined by `&`. -/
def stringify (obj : List (String × Option String)) : List Char :=
  [Char.ofNat 38].intercalate (obj.map qsPair)

/-! ## Configuration -/

/-- The environment variables the handlers read through `process.env`; a
variable that is not set reads as `undefined` (`none`). -/
structure Env where
  GOOGLE_CLIENT_ID : Option String
  GOOGLE_CLIENT_SECRET : Option String
  GOOGLE_REDIRECT_URI : Option String
deriving DecidableEq, Repr

/-! ## `src/models/user.js` and the repository -/

/-- A user document of `UserSchema`.  A field is `none` when the document has
no value for it; a date the document holds is a valid `Date`. -/
structure User where
  googleId : Option String
  displayName : Option String
  email : Option String
  accessToken : Option String
  refreshToken : Option String
  accessTokenExpiresAt : JSDate
  refreshTokenExpiresAt : JSDate
deriving DecidableEq, Repr

/-- The object in `req.session.user`: the properties of a user document, the
dates as the session holds them. -/
structure SessionUser where
  googleId : Option String
  displayName : Option String
  email : Option String
  accessToken : Option String
  refreshToken : Option String
  accessTokenExpiresAt : DateValue
  refreshTokenExpiresAt : DateValue
deriving DecidableEq, Repr

/-- A date of a user document as a property of a session object. -/
def DateValue.ofField (d : JSDate) : DateValue :=
  match d with
  | some t => .date (some t)
  | none => .undefined

/-- A user document seen as the object assigned to `req.session.user`. -/
def SessionUser.ofUser (u : User) : SessionUser :=
  { googleId := u.googleId
    displayName := u.displayName
    email := u.email
    accessToken := u.accessToken
    refreshToken := u.refreshToken
    accessTokenExpiresAt := DateValue.ofField u.accessTokenExpiresAt
    refreshTokenExpiresAt := DateValue.ofField u.refreshTokenExpiresAt }

/-- Modelled from the spec: the session layer is `express-session`, not under
`src/`; `server.js` 24-30 configures it without a `store`, so each session is
kept as JSON text (the serialized snapshot of the session persistence
interface).  What a later request reads back of the object an earlier request
left in `req.session.user`: strings stay, properties that are `undefined` stay
left out, and every date goes through `DateValue.toJSON`. -/
def SessionUser.fromStore (u : SessionUser) : SessionUser :=
  { u with accessTokenExpiresAt := u.accessTokenExpiresAt.toJSON
           refreshTokenExpiresAt := u.refreshTokenExpiresAt.toJSON }

/-- The update document handed to `User.findOneAndUpdate`: the fields other
than the key `googleId`.  `none` is a property that is `undefined` (not
supplied); a supplied date may be an Invalid Date (`some none`). -/
structure Update where
  displayName : Option String
  email : Option String
  accessToken : Option String
  refreshToken : Option String
  accessTokenExpiresAt : Option JSDate
  refreshTokenExpiresAt : Option JSDate
deriving DecidableEq, Repr

/-- A rejected repository call. -/
inductive RepoError where
  | castError
deriving DecidableEq, Repr

/-- The value of a field after a partial update: the supplied value, or the
old one when none is supplied. -/
def supplied {α : Type} (new : Option α) (old : α) : α :=
  match new with
  | some v => v
  | none => old

/-- Modelled from the spec: the partial update inside `User.findOneAndUpdate`
(Mongoose, not under `src/`): the document after merging only the supplied
fields into it; the key is kept. -/
def applyUpdate (f : Update) (u : User) : User :=
  { googleId := u.googleId
    displayName := supplied (f.displayName.map some) u.displayName
    email := supplied (f.email.map some) u.email
    accessToken := supplied (f.accessToken.map some) u.accessToken
    refreshToken := supplied (f.refreshToken.map some) u.refreshToken
    accessTokenExpiresAt := supplied f.accessTokenExpiresAt u.accessTokenExpiresAt
    refreshTokenExpiresAt := supplied f.refreshTokenExpiresAt u.refreshTokenExpiresAt }

/-- Modelled from the spec: the document `User.findOneAndUpdate` (Mongoose, not
under `src/`) starts from when it creates a record: nothing but the key. -/
def blankUser (googleId : Option String) : User :=
  { googleId := googleId, displayName := none, email := none, accessToken := none,
    refreshToken := none, accessTokenExpiresAt := none, refreshTokenExpiresAt := none }

/-- Modelled from the spec: the cast of an update inside
`User.findOneAndUpdate` (Mongoose, not under `src/`) to the schema of
`src/models/user.js`: every supplied date has to be a `Date` value, which an
Invalid Date is not. -/
def castable (f : Update) : Bool :=
  decide (f.accessTokenExpiresAt ≠ some none) && decide (f.refreshTokenExpiresAt ≠ some none)

/-- Modelled from the spec: the lookup and merge inside
`User.findOneAndUpdate` (Mongoose, not under `src/`): update the first
document whose `googleId` is the key; `none` when no document has it. -/
def updateFirst (googleId : Option String) (f : Update) : List User → Option (User × List User)
  | [] => none
  | u :: us =>
    if u.googleId = googleId then some (applyUpdate f u, applyUpdate f u :: us)
    else (updateFirst googleId f us).map (fun p => (p.1, u :: p.2))

/-- Modelled from the spec: `User.findOneAndUpdate(filter, update, options)` is
the Mongoose library call behind the repository and is not under `src/`.
Following the component design of the repository (`Upsert(id, fields)`: create
a record on first login, otherwise merge only the supplied fields and return
the full canonical record) over the schema of `src/models/user.js`: the call
is rejected when a supplied date is not a `Date` value (`RepositoryError`);
otherwise the first record with the key is merged and returned (option
`new: true`); when there is none, `upsert: true` stores and returns a new
record made of the key and the supplied fields, and without `upsert` nothing
is stored and `null` is returned. -/
def findOneAndUpdate (repo : List User) (googleId : Option String) (f : Update)
    (upsert : Bool) : Except RepoError (Option User × List User) :=
  if castable f then
    match updateFirst googleId f repo with
    | some (r, repo1) => .ok (some r, repo1)
    | none =>
      if upsert then .ok (some (applyUpdate f (blankUser googleId)),
        repo ++ [applyUpdate f (blankUser googleId)])
      else .ok (none, repo)
  else .error .castError

/-- Modelled from the spec: `FindBySubject(id)` of the repository, the record
stored for a key; the repository code is Mongoose and not under `src/`. -/
def findOne (repo : List User) (googleId : Option String) : Option User :=
  repo.find? (fun u => decide (u.googleId = googleId))

/-! ## The provider -/

/-- The fields the handlers read from a token endpoint answer. -/
structure TokenSet where
  access_token : Option String
  refresh_token : Option String
  expires_in : Option Int
  id_token : Option String
deriving DecidableEq, Repr

/-- The fields the callback reads from a tokeninfo answer. -/
structure IdPayload where
  sub : Option String
  name : Option String
  email : Option String
deriving DecidableEq, Repr

/-- What `JSON.parse` makes of a response body: a `SyntaxError`, the value
`null`, or a value whose properties can be read (`fields` are the ones the
handlers read; a property that is not there reads as `undefined`). -/
inductive Body (α : Type) where
  | notJson
  | jsonNull
  | json (fields : α)
deriving DecidableEq, Repr

/-- How an outbound HTTPS request ends: the request emits `error`, or a
response arrives with a status code and a body. -/
inductive HttpResult (α : Type) where
  | error
  | response (statusCode : Nat) (body : Body α)
deriving DecidableEq, Repr

/-- Whether an outbound request ends without a JSON value whose properties
can be read: the request errored, or the body is not JSON or is `null`. -/
def HttpResult.noValue {α : Type} (r : HttpResult α) : Bool :=
  match r with
  | .error => true
  | .response _ .notJson => true
  | .response _ .jsonNull => true
  | .response _ (.json _) => false

/-- The headers the handlers set on outbound requests. -/
structure Headers where
  contentType : Option String
  contentLength : Option Nat
  authorization : Option String
deriving DecidableEq, Repr

/-- An outbound HTTPS request: its options object and the body written. -/
structure HttpRequest where
  hostname : String
  path : String
  method : String
  headers : Headers
  body : String
deriving DecidableEq, Repr

/-! ## Requests, responses and traces -/

/-- What a handler sends back. -/
inductive Response where
  | send (status : Nat) (body : String)
  | redirect (url : String)
deriving DecidableEq, Repr

/-- One observable step of a handler. -/
inductive Event where
  | request (r : HttpRequest)
  | findOneAndUpdate (googleId : Option String) (f : Update) (upsert : Bool)
  | respond (r : Response)
  | next
deriving DecidableEq, Repr

/-- What `req.user` refers to: nothing, the very object stored in
`req.session.user`, or an object of its own. -/
inductive UserRef where
  | null
  | session
  | detached (u : SessionUser)
deriving DecidableEq, Repr

/-- The state one request runs in: the session, `req.user`, the repository
and the trace of what the handlers have done so far. -/
structure Req where
  sessionUser : Option SessionUser
  user : UserRef
  repo : List User
  trace : List Event
deriving DecidableEq, Repr

/-- The object `req.user` refers to, if any. -/
def Req.readUser (req : Req) : Option SessionUser :=
  match req.user with
  | .null => none
  | .session => req.sessionUser
  | .detached u => some u

/-- Assigning to properties of the object `req.user` refers to: when that
object is the session snapshot, the snapshot changes with it. -/
def Req.writeUser (req : Req) (u : SessionUser) : Req :=
  match req.user with
  | .null => req
  | .session => { req with sessionUser := some u }
  | .detached _ => { req with user := .detached u }

/-- Reading `req.session.user = v`: the session gets a new value, and an
object `req.user` shared with the session until now stays with `req.user`. -/
def Req.setSessionUser (req : Req) (v : Option SessionUser) : Req :=
  match req.user with
  | .session =>
    match req.sessionUser with
    | some u => { req with sessionUser := v, user := .detached u }
    | none => { req with sessionUser := v, user := .null }
  | _ => { req with sessionUser := v }

/-- Append an event to the trace. -/
def Req.log (req : Req) (e : Event) : Req :=
  { req with trace := req.trace ++ [e] }

/-- Number of calls to `next` in a trace. -/
def nextCalls (t : List Event) : Nat := t.count .next

/-- The responses sent in a trace. -/
def responses (t : List Event) : List Response :=
  t.filterMap (fun e => match e with | .respond r => some r | _ => none)

/-- The outbound requests issued in a trace. -/
def requests (t : List Event) : List HttpRequest :=
  t.filterMap (fun e => match e with | .request r => some r | _ => none)

/-- The repository calls issued in a trace. -/
def repoCalls (t : List Event) : List Event :=
  t.filter (fun e => match e with | .findOneAndUpdate _ _ _ => true | _ => false)

/-- A request as it arrives, `sessionUser` being what the session layer has
put in `req.session.user`: nothing done yet, `req.user` not set. -/
def Req.incoming (sessionUser : Option SessionUser) (repo : List User) : Req :=
  { sessionUser := sessionUser, user := .null, repo := repo, trace := [] }

/-- Reading a template literal placeholder for a string that may be
`undefined`. -/
def template (v : Option String) : String :=
  match v with
  | some s => s
  | none => "undefined"

/-- Reading `res.status(code).send(body)`. -/
def Req.send (req : Req) (code : Nat) (body : String) : Req :=
  req.log (.respond (.send code body))

/-! ## `src/server.js` -/

/-- The middleware that sets the user (server.js 33-36):
`req.user = req.session.user || null`.  A snapshot that is present is the
object `req.user` then refers to. -/
def setUser (req : Req) : Req :=
  match req.sessionUser with
  | some _ => { req with user := .session }
  | none => { req with user := .null }

/-- The constant `redirectUri` of the `/auth/google` route. -/
def redirectUri : String := "https://accounts.google.com/o/oauth2/v2/auth"

/-- The `queryParams` of the `/auth/google` route (server.js 41-47). -/
def queryParams (env : Env) : List Char :=
  stringify
    [("client_id", env.GOOGLE_CLIENT_ID),
     ("redirect_uri", env.GOOGLE_REDIRECT_URI),
     ("response_type", some "code"),
     ("scope", some "profile email"),
     ("access_type", some "offline")]

/-- The `url` of the `/auth/google` route (server.js 48). -/
def url (env : Env) : List Char :=
  redirectUri.data ++ Char.ofNat 63 :: queryParams env

/-- The route `GET /auth/google` (server.js 39-50). -/
def authGoogle (env : Env) (req : Req) : Req :=
  req.log (.respond (.redirect (String.mk (url env))))

/-- What the outside answers during one run of the callback route: the query
parameter `code`, the result of the code exchange, the result of the
tokeninfo request, and the two readings of `Date.now()` (server.js 106 and
108). -/
structure CallbackInputs where
  code : Option String
  tokenResponse : HttpResult TokenSet
  idTokenResponse : HttpResult IdPayload
  now : Int
  nowRefresh : Int
deriving DecidableEq, Repr

/-- The `tokenData` of the callback route (server.js 55-61). -/
def tokenData (env : Env) (code : Option String) : List Char :=
  stringify
    [("code", code),
     ("client_id", env.GOOGLE_CLIENT_ID),
     ("client_secret", env.GOOGLE_CLIENT_SECRET),
     ("redirect_uri", env.GOOGLE_REDIRECT_URI),
     ("grant_type", some "authorization_code")]

/-- The exchange request: `tokenOptions` with `tokenData` written to it
(server.js 63-83). -/
def tokenRequest (env : Env) (code : Option String) : HttpRequest :=
  { hostname := "oauth2.googleapis.com"
    path := "/token"
    method := "POST"
    headers :=
      { contentType := some "application/x-www-form-urlencoded"
        contentLength := some (tokenData env code).length
        authorization := none }
    body := String.mk (tokenData env code) }

/-- The tokeninfo request: `idTokenOptions` (server.js 88-92). -/
def idTokenRequest (id_token : Option String) : HttpRequest :=
  { hostname := "oauth2.googleapis.com"
    path := "/tokeninfo?id_token=" ++ template id_token
    method := "GET"
    headers := { contentType := none, contentLength := none, authorization := none }
    body := "" }

/-- The `newUser` of the callback route without its key (server.js 111-119);
the key `googleId: payload.sub` is the filter of the upsert. -/
def newUser (tokens : TokenSet) (payload : IdPayload) (accessTokenExpiresAt : JSDate)
    (refreshTokenExpiresAt : JSDate) : Update :=
  { displayName := payload.name
    email := payload.email
    accessToken := tokens.access_token
    refreshToken := tokens.refresh_token
    accessTokenExpiresAt := some accessTokenExpiresAt
    refreshTokenExpiresAt := some refreshTokenExpiresAt }

/-- The expiry the callback computes from the exchange answer (server.js
106). -/
def callbackExpiry (i : CallbackInputs) (tokens : TokenSet) : JSDate :=
  newDate (jsAdd (some i.now) (jsMul (toNumber tokens.expires_in) (some 1000)))

/-- The refresh token expiry the callback computes (server.js 107-109). -/
def callbackRefreshExpiry (i : CallbackInputs) : JSDate :=
  newDate (jsAdd (some i.nowRefresh) (some (365 * 24 * 60 * 60 * 1000)))

/-- The route `GET /auth/google/callback` (server.js 53-132).  Every `throw`
inside the `try` block ends in the `catch` block, which responds 500. -/
def callback (env : Env) (i : CallbackInputs) (req : Req) : Req :=
  let req1 := req.log (.request (tokenRequest env i.code))
  match i.tokenResponse with
  | .error => req1.send 500 "Internal Server Error"
  | .response _ .notJson => req1.send 500 "Internal Server Error"
  | .response _ .jsonNull => req1.send 500 "Internal Server Error"
  | .response _ (.json tokens) =>
    let req2 := req1.log (.request (idTokenRequest tokens.id_token))
    match i.idTokenResponse with
    | .error => req2.send 500 "Internal Server Error"
    | .response _ .notJson => req2.send 500 "Internal Server Error"
    | .response _ .jsonNull => req2.send 500 "Internal Server Error"
    | .response _ (.json payload) =>
      let accessTokenExpiresAt := callbackExpiry i tokens
      let refreshTokenExpiresAt := callbackRefreshExpiry i
      let f := newUser tokens payload accessTokenExpiresAt refreshTokenExpiresAt
      let req3 := req2.log (.findOneAndUpdate payload.sub f true)
      match findOneAndUpdate req3.repo payload.sub f true with
      | .error _ => req3.send 500 "Internal Server Error"
      | .ok (user, repo1) =>
        ({ req3 with repo := repo1 }.setSessionUser (user.map SessionUser.ofUser)).log
          (.respond (.redirect "/profile"))

/-- The `options` of the route `GET /api/data` (server.js 159-166), built from
the `req.user` the gate leaves behind. -/
def apiDataOptions (u : SessionUser) : HttpRequest :=
  { hostname := "www.googleapis.com"
    path := "/some/google/api/endpoint"
    method := "GET"
    headers :=
      { contentType := none, contentLength := none
        authorization := some ("Bearer " ++ template u.accessToken) }
    body := "" }

/-! ## `src/middleware/authenticate.js` -/

/-- What the outside answers during one run of the gate: the reading of
`new Date()` (authenticate.js 14), the result of the refresh request, and the
reading of `Date.now()` (authenticate.js 48). -/
structure GateInputs where
  now : Int
  refreshTokenResponse : HttpResult TokenSet
  nowRefresh : Int
deriving DecidableEq, Repr

/-- The `refreshTokenData` of the gate (authenticate.js 17-22). -/
def refreshTokenData (env : Env) (u : SessionUser) : List Char :=
  stringify
    [("client_id", env.GOOGLE_CLIENT_ID),
     ("client_secret", env.GOOGLE_CLIENT_SECRET),
     ("refresh_token", u.refreshToken),
     ("grant_type", some "refresh_token")]

/-- The refresh request: `refreshTokenOptions` with `refreshTokenData` written
to it (authenticate.js 24-43). -/
def refreshTokenRequest (env : Env) (u : SessionUser) : HttpRequest :=
  { hostname := "oauth2.googleapis.com"
    path := "/token"
    method := "POST"
    headers :=
      { contentType := some "application/x-www-form-urlencoded"
        contentLength := some (refreshTokenData env u).length
        authorization := none }
    body := String.mk (refreshTokenData env u) }

/-- The update document of the gate (authenticate.js 54-57). -/
def refreshUpdate (access_token : Option String) (accessTokenExpiresAt : JSDate) : Update :=
  { displayName := none, email := none
    accessToken := access_token
    refreshToken := none
    accessTokenExpiresAt := some accessTokenExpiresAt
    refreshTokenExpiresAt := none }

/-- The expiry the gate computes from a refresh answer (authenticate.js
47-49). -/
def refreshedExpiry (i : GateInputs) (newTokens : TokenSet) : JSDate :=
  newDate (jsAdd (some i.nowRefresh) (jsMul (toNumber newTokens.expires_in) (some 1000)))

/-- The gate `authenticate` (authenticate.js 8-67).  Every `throw` inside the
`try` block ends in the `catch` block, which responds 500 and returns. -/
def authenticate (env : Env) (i : GateInputs) (req : Req) : Req :=
  match req.readUser with
  | none => req.send 401 "Unauthorized"
  | some u =>
    if dateGt i.now u.accessTokenExpiresAt then
      let req1 := req.log (.request (refreshTokenRequest env u))
      match i.refreshTokenResponse with
      | .error => req1.send 500 "Internal Server Error"
      | .response _ .notJson => req1.send 500 "Internal Server Error"
      | .response _ .jsonNull => req1.send 500 "Internal Server Error"
      | .response _ (.json newTokens) =>
        let accessTokenExpiresAt := refreshedExpiry i newTokens
        let req2 := req1.writeUser
          { u with accessToken := newTokens.access_token
                   accessTokenExpiresAt := .date accessTokenExpiresAt }
        let f := refreshUpdate newTokens.access_token accessTokenExpiresAt
        let req3 := req2.log (.findOneAndUpdate u.googleId f false)
        match findOneAndUpdate req3.repo u.googleId f false with
        | .error _ => req3.send 500 "Internal Server Error"
        | .ok (user, repo1) =>
          ({ req3 with repo := repo1 }.setSessionUser (user.map SessionUser.ofUser)).log .next
    else req.log .next

/-- The middleware that sets the user followed by the gate (server.js 33-36
and `authenticate`), on a request whose `req.session.user` is `sessionUser`. -/
def gate (env : Env) (i : GateInputs) (sessionUser : Option SessionUser)
    (repo : List User) : Req :=
  authenticate env i (setUser (Req.incoming sessionUser repo))

/-- A guarded route up to the protected handler (server.js 24-36 and 154):
the session layer reads back what an earlier request saved in
`req.session.user`, then the middleware that sets the user and the gate run. -/
def guarded (env : Env) (i : GateInputs) (saved : Option SessionUser)
    (repo : List User) : Req :=
  gate env i (saved.map SessionUser.fromStore) repo

/-- The callback route on an incoming request. -/
def login (env : Env) (i : CallbackInputs) (sessionUser : Option SessionUser)
    (repo : List User) : Req :=
  callback env i (setUser (Req.incoming sessionUser repo))

/-- Whether a session object carries an access token expiry later than
`now`. -/
def nonExpired (now : Int) (u : SessionUser) : Bool :=
  match u.accessTokenExpiresAt.timeValue with
  | some e => decide (now < e)
  | none => false

/-! ## Concrete inputs -/

/-- A configuration. -/
def sampleEnv : Env :=
  { GOOGLE_CLIENT_ID := some "client-1"
    GOOGLE_CLIENT_SECRET := some "secret"
    GOOGLE_REDIRECT_URI := some "http://localhost:3000/auth/google/callback" }

/-- A user whose access token expires at time 1000. -/
def alice : User :=
  { googleId := some "g-1", displayName := some "Alice", email := some "alice@example.com"
    accessToken := some "at-1", refreshToken := some "rt-1"
    accessTokenExpiresAt := some 1000, refreshTokenExpiresAt := some 31536000000 }

/-- A token endpoint answer carrying a token set with a lifetime of 3600
seconds. -/
def goodRefresh : HttpResult TokenSet :=
  .response 200 (.json { access_token := some "at-2", refresh_token := none,
                         expires_in := some 3600, id_token := none })

/-- A token endpoint answer with an error status and an error body: a JSON
object with none of the token fields. -/
def errorAnswer : HttpResult TokenSet :=
  .response 400 (.json { access_token := none, refresh_token := none,
                         expires_in := none, id_token := none })

/-- Clock readings just before the expiry of `alice`. -/
def beforeExpiry : GateInputs :=
  { now := 999, refreshTokenResponse := goodRefresh, nowRefresh := 999 }

/-- Clock readings at the very expiry of `alice`. -/
def atExpiry : GateInputs :=
  { now := 1000, refreshTokenResponse := goodRefresh, nowRefresh := 1000 }

/-- Clock readings past the expiry of `alice`, the provider answering with a
token set. -/
def afterExpiry : GateInputs :=
  { now := 1001, refreshTokenResponse := goodRefresh, nowRefresh := 1002 }

/-- Clock readings past the expiry of `alice`, the provider answering with an
error status and an error body. -/
def afterExpiryRejected : GateInputs :=
  { now := 1001, refreshTokenResponse := errorAnswer, nowRefresh := 1002 }

/-- A login whose exchange answer has status 200 and a JSON body without
`access_token`, the tokeninfo request succeeding. -/
def loginWithoutAccessToken : CallbackInputs :=
  { code := some "abc123"
    tokenResponse := .response 200 (.json { access_token := none, refresh_token := some "rt-1",
                                            expires_in := some 3600, id_token := some "idt-1" })
    idTokenResponse := .response 200 (.json { sub := some "g-1", name := some "Alice",
                                              email := some "alice@example.com" })
    now := 5000
    nowRefresh := 5001 }

/-- A login with code `abc123` whose exchange answer declares a lifetime of
3600 seconds. -/
def loginAbc123 : CallbackInputs :=
  { code := some "abc123"
    tokenResponse := .response 200 (.json { access_token := some "at-1",
                                            refresh_token := some "rt-1",
                                            expires_in := some 3600, id_token := some "idt-1" })
    idTokenResponse := .response 200 (.json { sub := some "g-1", name := some "Alice",
                                              email := some "alice@example.com" })
    now := 5000
    nowRefresh := 5001 }

/-- A login whose exchange is answered with an error status and an error
body, and whose tokeninfo request errors. -/
def loginRejected : CallbackInputs :=
  { code := some "abc123"
    tokenResponse := errorAnswer
    idTokenResponse := .error
    now := 5000
    nowRefresh := 5001 }

/-- A login whose exchange answer has status 400 and a complete token set. -/
def loginStatus400 : CallbackInputs :=
  { code := some "abc123"
    tokenResponse := .response 400 (.json { access_token := some "at-1",
                                            refresh_token := some "rt-1",
                                            expires_in := some 3600, id_token := some "idt-1" })
    idTokenResponse := .response 200 (.json { sub := some "g-1", name := some "Alice",
                                              email := some "alice@example.com" })
    now := 5000
    nowRefresh := 5001 }

/-- The request state a login with code `abc123` leaves behind: the access
token expires at 3605000. -/
def afterLogin : Req := login sampleEnv loginAbc123 none []

/-- Clock readings past the expiry of the login, the provider ready to answer
with a token set. -/
def pastExpiry : GateInputs :=
  { now := 3605001, refreshTokenResponse := goodRefresh, nowRefresh := 3605002 }

/-- Clock readings past the expiry of the login, the provider ready to answer
with an error status and an error body. -/
def pastExpiryRejected : GateInputs :=
  { now := 3605001, refreshTokenResponse := errorAnswer, nowRefresh := 3605002 }

/-! ## Query strings -/

theorem hexDigit_ne (n : Nat) (h : n < 16) :
    hexDigit n ≠ Char.ofNat 38 ∧ hexDigit n ≠ Char.ofNat 61 := by
  interval_cases n <;> decide

theorem noEscape_ne (c : Char) (h : noEscape c = true) :
    c ≠ Char.ofNat 38 ∧ c ≠ Char.ofNat 61 := by
  constructor <;> (rintro rfl; revert h; decide)

theorem mem_hexByte (b : Nat) (c : Char) (h : c ∈ hexByte b) :
    c ≠ Char.ofNat 38 ∧ c ≠ Char.ofNat 61 := by
  simp only [hexByte, List.mem_cons, List.mem_singleton, List.not_mem_nil, or_false] at h
  rcases h with rfl | rfl | rfl
  · constructor <;> decide
  · exact hexDigit_ne _ (Nat.mod_lt _ (by decide))
  · exact hexDigit_ne _ (Nat.mod_lt _ (by decide))

theorem mem_escapeChar (a c : Char) (h : c ∈ escapeChar a) :
    c ≠ Char.ofNat 38 ∧ c ≠ Char.ofNat 61 := by
  unfold escapeChar at h
  split at h
  · rename_i hne
    rw [List.mem_singleton] at h
    subst h
    exact noEscape_ne _ hne
  · rw [List.mem_flatMap] at h
    obtain ⟨b, _, hb⟩ := h
    exact mem_hexByte b c hb

/-- An escaped string contains neither `&` nor `=`. -/
theorem mem_qsEscape (s : List Char) (c : Char) (h : c ∈ qsEscape s) :
    c ≠ Char.ofNat 38 ∧ c ≠ Char.ofNat 61 := by
  unfold qsEscape at h
  rw [List.mem_flatMap] at h
  obtain ⟨a, _, ha⟩ := h
  exact mem_escapeChar a c ha

theorem amp_not_mem_qsPair (kv : String × Option String) : Char.ofNat 38 ∉ qsPair kv := by
  intro h
  simp only [qsPair, List.mem_append, List.mem_cons] at h
  rcases h with h | h | h
  · exact (mem_qsEscape _ _ h).1 rfl
  · exact absurd h (by decide)
  · exact (mem_qsEscape _ _ h).1 rfl

/-- Splitting a query string at `&` gives back its pairs. -/
theorem splitOn_stringify (obj : List (String × Option String)) (h : obj ≠ []) :
    (stringify obj).splitOn (Char.ofNat 38) = obj.map qsPair := by
  unfold stringify
  apply List.splitOn_intercalate
  · intro l hl
    rw [List.mem_map] at hl
    obtain ⟨kv, _, rfl⟩ := hl
    exact amp_not_mem_qsPair kv
  · simpa using h

/-! ## The authorization URL -/

/-- C9: for every configuration the `/auth/google` route redirects to a URL
that depends on the configuration only: the provider endpoint, `?`, and a
query string whose parameters, split at `&`, are exactly `client_id`,
`redirect_uri`, `response_type=code`, `scope=profile%20email` (the scopes
profile and email) and `access_type=offline`. -/
theorem authGoogle_url (env : Env) (req : Req) :
    (authGoogle env req).trace = req.trace ++ [.respond (.redirect (String.mk (url env)))] ∧
    url env = "https://accounts.google.com/o/oauth2/v2/auth?".data ++ queryParams env ∧
    (queryParams env).splitOn (Char.ofNat 38) =
      [ "client_id=".data ++ qsEscape (stringifyPrimitive env.GOOGLE_CLIENT_ID),
        "redirect_uri=".data ++ qsEscape (stringifyPrimitive env.GOOGLE_REDIRECT_URI),
        "response_type=code".data,
        "scope=profile%20email".data,
        "access_type=offline".data ] := by
  refine ⟨rfl, rfl, ?_⟩
  unfold queryParams
  rw [splitOn_stringify _ (by simp)]
  simp only [List.map_cons, List.map_nil, List.cons.injEq, and_true]
  refine ⟨rfl, rfl, ?_, ?_, ?_⟩ <;> decide

/-! ## The gate -/

/-- C8: without a session snapshot the gate responds 401 and nothing else
happens: no call to `next`, no outbound request, no repository call, and the
session and the repository are as before. -/
theorem authenticate_unauthenticated (env : Env) (i : GateInputs) (repo : List User) :
    guarded env i none repo =
      { sessionUser := none, user := .null, repo := repo,
        trace := [.respond (.send 401 "Unauthorized")] } ∧
    nextCalls (guarded env i none repo).trace = 0 ∧
    requests (guarded env i none repo).trace = [] ∧
    repoCalls (guarded env i none repo).trace = [] := by
  refine ⟨rfl, ?_, ?_, ?_⟩ <;> rfl

theorem gate_valid_eq (env : Env) (i : GateInputs) (u : SessionUser) (repo : List User)
    (h : dateGt i.now u.accessTokenExpiresAt = false) :
    gate env i (some u) repo =
      { sessionUser := some u, user := .session, repo := repo, trace := [.next] } := by
  simp [gate, authenticate, setUser, Req.incoming, Req.readUser, h, Req.log]

theorem dateGt_of_le (now e : Int) (v : DateValue) (hv : v.timeValue = some e)
    (h : now ≤ e) : dateGt now v = false := by
  cases v with
  | date d =>
    cases d with
    | none => rfl
    | some t =>
      have ht : t = e := by simpa [DateValue.timeValue] using hv
      subst ht
      simp [dateGt]
      omega
  | isoString t => rfl
  | null => simp [DateValue.timeValue] at hv
  | undefined => rfl

theorem dateGt_toJSON (now e : Int) (v : DateValue) (hv : v.timeValue = some e) :
    dateGt now v.toJSON = false := by
  cases v with
  | date d =>
    cases d with
    | none => simp [DateValue.timeValue] at hv
    | some t => rfl
  | isoString t => rfl
  | null => simp [DateValue.timeValue] at hv
  | undefined => rfl

/-- On the route the gate never refreshes: whatever the clock reads, a saved
snapshot whose access token expiry is a point in time comes back from the
session store with that expiry as text, the comparison of authenticate.js 14
is false, and the gate only calls `next`. -/
theorem guarded_stored_eq (env : Env) (i : GateInputs) (u : SessionUser) (repo : List User)
    (e : Int) (he : u.accessTokenExpiresAt.timeValue = some e) :
    guarded env i (some u) repo =
      { sessionUser := some u.fromStore, user := .session, repo := repo,
        trace := [.next] } := by
  unfold guarded
  exact gate_valid_eq env i u.fromStore repo (dateGt_toJSON i.now e _ he)

/-- C6: with a snapshot whose access token expiry is later than now, the gate
calls `next` exactly once and does nothing else: no response, no outbound
request, no repository call, session and repository unchanged.  This holds of
the gate on any such `req.session.user`, the expiry being a `Date` or ISO
text, and of the guarded route, where the snapshot is the one the session
store hands back. -/
theorem authenticate_valid (env : Env) (i : GateInputs) (u : SessionUser)
    (repo : List User) (e : Int) (he : u.accessTokenExpiresAt.timeValue = some e)
    (hlt : i.now < e) :
    gate env i (some u) repo =
      { sessionUser := some u, user := .session, repo := repo, trace := [.next] } ∧
    guarded env i (some u) repo =
      { sessionUser := some u.fromStore, user := .session, repo := repo,
        trace := [.next] } ∧
    nextCalls (gate env i (some u) repo).trace = 1 ∧
    responses (gate env i (some u) repo).trace = [] ∧
    requests (gate env i (some u) repo).trace = [] ∧
    repoCalls (gate env i (some u) repo).trace = [] ∧
    nextCalls (guarded env i (some u) repo).trace = 1 ∧
    responses (guarded env i (some u) repo).trace = [] ∧
    requests (guarded env i (some u) repo).trace = [] ∧
    repoCalls (guarded env i (some u) repo).trace = [] := by
  rw [gate_valid_eq env i u repo (dateGt_of_le i.now e _ he (by omega)),
    guarded_stored_eq env i u repo e he]
  refine ⟨rfl, rfl, ?_, ?_, ?_, ?_, ?_, ?_, ?_, ?_⟩ <;> rfl

theorem authenticate_valid_witness :
    gate sampleEnv beforeExpiry (some (SessionUser.ofUser alice)) [alice] =
      { sessionUser := some (SessionUser.ofUser alice), user := .session, repo := [alice],
        trace := [.next] } ∧
    guarded sampleEnv beforeExpiry (some (SessionUser.ofUser alice)) [alice] =
      { sessionUser := some (SessionUser.ofUser alice).fromStore, user := .session,
        repo := [alice], trace := [.next] } ∧
    nextCalls (gate sampleEnv beforeExpiry (some (SessionUser.ofUser alice))
      [alice]).trace = 1 ∧
    responses (gate sampleEnv beforeExpiry (some (SessionUser.ofUser alice))
      [alice]).trace = [] ∧
    requests (gate sampleEnv beforeExpiry (some (SessionUser.ofUser alice))
      [alice]).trace = [] ∧
    repoCalls (gate sampleEnv beforeExpiry (some (SessionUser.ofUser alice))
      [alice]).trace = [] ∧
    nextCalls (guarded sampleEnv beforeExpiry (some (SessionUser.ofUser alice))
      [alice]).trace = 1 ∧
    responses (guarded sampleEnv beforeExpiry (some (SessionUser.ofUser alice))
      [alice]).trace = [] ∧
    requests (guarded sampleEnv beforeExpiry (some (SessionUser.ofUser alice))
      [alice]).trace = [] ∧
    repoCalls (guarded sampleEnv beforeExpiry (some (SessionUser.ofUser alice))
      [alice]).trace = [] :=
  authenticate_valid sampleEnv beforeExpiry (SessionUser.ofUser alice) [alice] 1000 rfl
    (by decide)

/-! ## The guarded route after the expiry -/

/-- C2 does not hold of the code: a user logs in, the access token expiring at
3605000, and calls a guarded route at 3605001.  The session store hands the
expiry back as ISO text, the comparison of authenticate.js 14 is false, and
the gate calls `next` without any outbound request. -/
theorem guarded_expired_no_refresh :
    afterLogin.sessionUser.map (fun v => v.accessTokenExpiresAt) =
      some (.date (some 3605000)) ∧
    (afterLogin.sessionUser.map SessionUser.fromStore).map
      (fun v => v.accessTokenExpiresAt) = some (.isoString 3605000) ∧
    pastExpiry.now = 3605001 ∧
    (guarded sampleEnv pastExpiry afterLogin.sessionUser afterLogin.repo).trace = [.next] ∧
    requests (guarded sampleEnv pastExpiry afterLogin.sessionUser afterLogin.repo).trace =
      [] := by
  decide

/-- C1 does not hold of the code.  On the route, after the expiry and with a
provider that would answer the refresh with status 400 and an error body, the
gate sends no response and calls `next`, no refresh being attempted.  And
where the gate does refresh, on a snapshot whose expiry is a `Date`, that
answer makes it respond 500 without calling `next` and with the repository
unchanged, but only after it has overwritten `accessToken` and
`accessTokenExpiresAt` of the session snapshot and called
`User.findOneAndUpdate`. -/
theorem guarded_refresh_failure_unnoticed :
    (guarded sampleEnv pastExpiryRejected afterLogin.sessionUser afterLogin.repo).trace =
      [.next] ∧
    responses (guarded sampleEnv pastExpiryRejected afterLogin.sessionUser
      afterLogin.repo).trace = [] ∧
    responses (gate sampleEnv afterExpiryRejected (some (SessionUser.ofUser alice))
      [alice]).trace = [.send 500 "Internal Server Error"] ∧
    nextCalls (gate sampleEnv afterExpiryRejected (some (SessionUser.ofUser alice))
      [alice]).trace = 0 ∧
    (gate sampleEnv afterExpiryRejected (some (SessionUser.ofUser alice)) [alice]).repo =
      [alice] ∧
    repoCalls (gate sampleEnv afterExpiryRejected (some (SessionUser.ofUser alice))
      [alice]).trace = [.findOneAndUpdate (some "g-1") (refreshUpdate none none) false] ∧
    (gate sampleEnv afterExpiryRejected (some (SessionUser.ofUser alice))
      [alice]).sessionUser =
      some { SessionUser.ofUser alice with accessToken := none
                                           accessTokenExpiresAt := .date none } ∧
    (gate sampleEnv afterExpiryRejected (some (SessionUser.ofUser alice))
      [alice]).sessionUser ≠ some (SessionUser.ofUser alice) := by
  decide

/-- C3 does not hold of the code: after the expiry, with a provider ready to
answer with a token set, the gate refreshes nothing on the route; the session
snapshot and the durable record keep the expiry 3605000, which is not later
than the clock reading 3605001. -/
theorem guarded_expired_stays_expired :
    pastExpiry.refreshTokenResponse = goodRefresh ∧
    (guarded sampleEnv pastExpiry afterLogin.sessionUser afterLogin.repo).sessionUser.map
      (fun v => v.accessTokenExpiresAt) = some (.isoString 3605000) ∧
    (findOne (guarded sampleEnv pastExpiry afterLogin.sessionUser afterLogin.repo).repo
      (some "g-1")).map (fun r => r.accessTokenExpiresAt) = some (some 3605000) ∧
    (guarded sampleEnv pastExpiry afterLogin.sessionUser afterLogin.repo).sessionUser.map
      (nonExpired pastExpiry.now) = some false := by
  decide

/-- C4 does not hold of the code: after the expiry the gate calls `next` on
the route, and the credential the handler reads from `req.user` is the
expired one: its expiry 3605000 is earlier than the clock reading 3605001, and
the handler of `/api/data` sends the old access token. -/
theorem guarded_expired_next :
    nextCalls (guarded sampleEnv pastExpiry afterLogin.sessionUser afterLogin.repo).trace =
      1 ∧
    (guarded sampleEnv pastExpiry afterLogin.sessionUser afterLogin.repo).readUser.map
      (fun v => v.accessTokenExpiresAt.timeValue) = some (some 3605000) ∧
    (guarded sampleEnv pastExpiry afterLogin.sessionUser afterLogin.repo).readUser.map
      (nonExpired pastExpiry.now) = some false ∧
    (guarded sampleEnv pastExpiry afterLogin.sessionUser afterLogin.repo).readUser.map
      (fun v => (apiDataOptions v).headers.authorization) = some (some "Bearer at-1") := by
  decide

/-! ## The refresh branch of the gate

The gate on a request whose `req.session.user` holds the access token expiry
as a `Date` object, as it does within the request that assigned it. -/

theorem dateGt_of_lt (now e : Int) (v : DateValue) (hv : v = .date (some e)) (h : e < now) :
    dateGt now v = true := by
  simp [dateGt, hv, h]

theorem gate_expired_trace (env : Env) (i : GateInputs) (u : SessionUser) (repo : List User)
    (h : dateGt i.now u.accessTokenExpiresAt = true) :
    ∃ rest, (gate env i (some u) repo).trace =
      .request (refreshTokenRequest env u) :: rest := by
  simp only [gate, authenticate, setUser, Req.incoming, Req.readUser, h, if_true]
  rcases i.refreshTokenResponse with _ | ⟨s, _ | _ | ts⟩
  · exact ⟨_, rfl⟩
  · exact ⟨_, rfl⟩
  · exact ⟨_, rfl⟩
  · dsimp only
    split
    · exact ⟨_, rfl⟩
    · simp only [Req.setSessionUser, Req.log, Req.writeUser]
      exact ⟨_, rfl⟩

theorem refreshTokenRequest_body (env : Env) (u : SessionUser) :
    (refreshTokenRequest env u).body.data.splitOn (Char.ofNat 38) =
      [ "client_id=".data ++ qsEscape (stringifyPrimitive env.GOOGLE_CLIENT_ID),
        "client_secret=".data ++ qsEscape (stringifyPrimitive env.GOOGLE_CLIENT_SECRET),
        "refresh_token=".data ++ qsEscape (stringifyPrimitive u.refreshToken),
        "grant_type=refresh_token".data ] := by
  show (refreshTokenData env u).splitOn (Char.ofNat 38) = _
  unfold refreshTokenData
  rw [splitOn_stringify _ (by simp)]
  simp only [List.map_cons, List.map_nil, List.cons.injEq, and_true]
  refine ⟨rfl, rfl, rfl, ?_⟩
  decide

/-- The comparison of authenticate.js 14 is strict: with a `Date` expiry equal
to now the gate issues no outbound request and calls `next`. -/
theorem gate_boundary_no_refresh :
    (gate sampleEnv atExpiry (some (SessionUser.ofUser alice)) [alice]).trace = [.next] ∧
    (SessionUser.ofUser alice).accessTokenExpiresAt = .date (some atExpiry.now) := by
  decide

/-- With a `Date` expiry strictly earlier than now, the first thing the gate
does is a POST to the token endpoint whose body carries
`grant_type=refresh_token` and the refresh token of the snapshot. -/
theorem gate_expired_refreshes (env : Env) (i : GateInputs) (u : SessionUser)
    (repo : List User) (e : Int) (he : u.accessTokenExpiresAt = .date (some e))
    (hlt : e < i.now) :
    (∃ rest, (gate env i (some u) repo).trace =
        .request (refreshTokenRequest env u) :: rest) ∧
    (refreshTokenRequest env u).hostname = "oauth2.googleapis.com" ∧
    (refreshTokenRequest env u).path = "/token" ∧
    (refreshTokenRequest env u).method = "POST" ∧
    (refreshTokenRequest env u).body.data.splitOn (Char.ofNat 38) =
      [ "client_id=".data ++ qsEscape (stringifyPrimitive env.GOOGLE_CLIENT_ID),
        "client_secret=".data ++ qsEscape (stringifyPrimitive env.GOOGLE_CLIENT_SECRET),
        "refresh_token=".data ++ qsEscape (stringifyPrimitive u.refreshToken),
        "grant_type=refresh_token".data ] :=
  ⟨gate_expired_trace env i u repo (dateGt_of_lt _ _ _ he hlt), rfl, rfl, rfl,
    refreshTokenRequest_body env u⟩

/-- With a `Date` expiry strictly earlier than now, when the refresh request
errors or its response body is not JSON or is the JSON value `null`, the gate
responds 500 and leaves session and repository as they were. -/
theorem gate_refresh_failure (env : Env) (i : GateInputs) (u : SessionUser)
    (repo : List User) (e : Int) (he : u.accessTokenExpiresAt = .date (some e))
    (hlt : e < i.now)
    (hfail : i.refreshTokenResponse = .error ∨
      (∃ s, i.refreshTokenResponse = .response s .notJson) ∨
      (∃ s, i.refreshTokenResponse = .response s .jsonNull)) :
    gate env i (some u) repo =
      { sessionUser := some u, user := .session, repo := repo,
        trace := [.request (refreshTokenRequest env u),
                  .respond (.send 500 "Internal Server Error")] } := by
  have h := dateGt_of_lt _ _ _ he hlt
  rcases hfail with hf | ⟨s, hf⟩ | ⟨s, hf⟩ <;>
    simp [gate, authenticate, setUser, Req.incoming, Req.readUser, h, hf, Req.log,
      Req.send]

/-! ## The repository -/

theorem updateFirst_of_findOne (googleId : Option String) (f : Update) :
    ∀ (repo : List User) (r : User), findOne repo googleId = some r →
      ∃ repo1, updateFirst googleId f repo = some (applyUpdate f r, repo1) ∧
        findOne repo1 googleId = some (applyUpdate f r) := by
  intro repo
  induction repo with
  | nil => intro r h; simp [findOne] at h
  | cons u us ih =>
    intro r h
    by_cases hu : u.googleId = googleId
    · have hr : u = r := by simpa [findOne, List.find?_cons, hu] using h
      subst hr
      refine ⟨applyUpdate f u :: us, by simp [updateFirst, hu], ?_⟩
      have : (applyUpdate f u).googleId = googleId := hu
      simp [findOne, List.find?_cons, this]
    · have h1 : findOne us googleId = some r := by
        simpa [findOne, List.find?_cons, hu] using h
      obtain ⟨repo1, h2, h3⟩ := ih r h1
      refine ⟨u :: repo1, by simp [updateFirst, hu, h2], ?_⟩
      simpa [findOne, List.find?_cons, hu] using h3

theorem updateFirst_of_findOne_none (googleId : Option String) (f : Update) :
    ∀ (repo : List User), findOne repo googleId = none →
      updateFirst googleId f repo = none := by
  intro repo
  induction repo with
  | nil => intro _; rfl
  | cons u us ih =>
    intro h
    by_cases hu : u.googleId = googleId
    · simp [findOne, List.find?_cons, hu] at h
    · have h1 : findOne us googleId = none := by
        simpa [findOne, List.find?_cons, hu] using h
      simp [updateFirst, hu, ih h1]

theorem findOneAndUpdate_found (repo : List User) (googleId : Option String) (f : Update)
    (upsert : Bool) (r : User) (hc : castable f = true)
    (hr : findOne repo googleId = some r) :
    ∃ repo1, findOneAndUpdate repo googleId f upsert = .ok (some (applyUpdate f r), repo1) ∧
      findOne repo1 googleId = some (applyUpdate f r) := by
  obtain ⟨repo1, h1, h2⟩ := updateFirst_of_findOne googleId f repo r hr
  refine ⟨repo1, ?_, h2⟩
  unfold findOneAndUpdate
  rw [if_pos hc, h1]

theorem findOne_append_new (googleId : Option String) (repo : List User) (r : User)
    (h : findOne repo googleId = none) (hr : r.googleId = googleId) :
    findOne (repo ++ [r]) googleId = some r := by
  unfold findOne at *
  rw [List.find?_append, h]
  simp [List.find?_cons, hr]

/-! ## The refresh answer -/

theorem gate_expired_json (env : Env) (i : GateInputs) (u : SessionUser) (repo : List User)
    (s : Nat) (ts : TokenSet) (h : dateGt i.now u.accessTokenExpiresAt = true)
    (hresp : i.refreshTokenResponse = .response s (.json ts)) :
    gate env i (some u) repo =
      match findOneAndUpdate repo u.googleId
          (refreshUpdate ts.access_token (refreshedExpiry i ts)) false with
      | .error _ =>
        { sessionUser := some { u with accessToken := ts.access_token
                                       accessTokenExpiresAt := .date (refreshedExpiry i ts) }
          user := .session
          repo := repo
          trace := [.request (refreshTokenRequest env u),
                    .findOneAndUpdate u.googleId
                      (refreshUpdate ts.access_token (refreshedExpiry i ts)) false,
                    .respond (.send 500 "Internal Server Error")] }
      | .ok (user, repo1) =>
        { sessionUser := user.map SessionUser.ofUser
          user := .detached { u with accessToken := ts.access_token
                                     accessTokenExpiresAt := .date (refreshedExpiry i ts) }
          repo := repo1
          trace := [.request (refreshTokenRequest env u),
                    .findOneAndUpdate u.googleId
                      (refreshUpdate ts.access_token (refreshedExpiry i ts)) false,
                    .next] } := by
  simp only [gate, authenticate, setUser, Req.incoming, Req.readUser, h, hresp, if_true,
    Req.log, Req.writeUser, List.nil_append, List.cons_append]
  cases findOneAndUpdate repo u.googleId
      (refreshUpdate ts.access_token (refreshedExpiry i ts)) false with
  | error e => rfl
  | ok p => rfl

theorem refreshedExpiry_of_castable (i : GateInputs) (ts : TokenSet) (a : Option String)
    (h : castable (refreshUpdate a (refreshedExpiry i ts)) = true) :
    ∃ n, ts.expires_in = some n ∧ refreshedExpiry i ts = some (i.nowRefresh + n * 1000) := by
  cases hn : ts.expires_in with
  | none =>
    simp [castable, refreshUpdate, refreshedExpiry, toNumber, jsMul, jsAdd, newDate, hn] at h
  | some n =>
    refine ⟨n, rfl, ?_⟩
    simp only [refreshedExpiry, toNumber, jsMul, jsAdd, newDate, hn] at h ⊢
    split
    · rfl
    · rename_i hr
      simp [castable, refreshUpdate, hr] at h

theorem refreshedExpiry_in_range (i : GateInputs) (ts : TokenSet) (n : Int)
    (hn : ts.expires_in = some n)
    (hr : -maxTimeValue ≤ i.nowRefresh + n * 1000 ∧ i.nowRefresh + n * 1000 ≤ maxTimeValue) :
    refreshedExpiry i ts = some (i.nowRefresh + n * 1000) := by
  simp [refreshedExpiry, toNumber, jsMul, jsAdd, newDate, hn, hr]

theorem refreshedExpiry_none (i : GateInputs) (ts : TokenSet) (hn : ts.expires_in = none) :
    refreshedExpiry i ts = none := by
  simp [refreshedExpiry, toNumber, jsMul, jsAdd, newDate, hn]

/-- With a `Date` expiry strictly earlier than now and a refresh answer that
is JSON without `expires_in`, whatever its status code, the gate responds 500,
does not call `next` and leaves the repository unchanged, but the session
snapshot has lost its access token and its expiry is an Invalid Date: the
gate writes to `req.user`, the very object in `req.session.user`, before the
update is rejected. -/
theorem gate_error_body (env : Env) (i : GateInputs) (u : SessionUser) (repo : List User)
    (e : Int) (s : Nat) (ts : TokenSet) (he : u.accessTokenExpiresAt = .date (some e))
    (hlt : e < i.now) (hresp : i.refreshTokenResponse = .response s (.json ts))
    (hn : ts.expires_in = none) :
    gate env i (some u) repo =
      { sessionUser := some { u with accessToken := ts.access_token
                                     accessTokenExpiresAt := .date none }
        user := .session
        repo := repo
        trace := [.request (refreshTokenRequest env u),
                  .findOneAndUpdate u.googleId (refreshUpdate ts.access_token none) false,
                  .respond (.send 500 "Internal Server Error")] } := by
  rw [gate_expired_json env i u repo s ts (dateGt_of_lt _ _ _ he hlt) hresp,
    refreshedExpiry_none i ts hn]
  rfl

/-- A snapshot that lags the durable record: after a successful refresh the
session carries the refresh token of the durable record, not the one the
snapshot had. -/
theorem gate_lagging_snapshot :
    ((gate sampleEnv afterExpiry (some (SessionUser.ofUser alice))
      [{ alice with refreshToken := some "rt-2" }]).sessionUser.map
        (fun v => v.refreshToken)) = some (some "rt-2") ∧
    alice.refreshToken = some "rt-1" := by
  decide

/-- A snapshot without a durable record: the update finds nothing, the session
snapshot becomes `null` and the gate still calls `next`. -/
theorem gate_missing_record :
    (gate sampleEnv afterExpiry (some (SessionUser.ofUser alice)) []).sessionUser = none ∧
    (gate sampleEnv afterExpiry (some (SessionUser.ofUser alice)) []).repo = [] ∧
    nextCalls (gate sampleEnv afterExpiry (some (SessionUser.ofUser alice)) []).trace =
      1 := by
  decide

/-- With a `Date` expiry strictly earlier than now, a durable record for the
`googleId` of the snapshot, a refresh answer that is a token set with a
positive `expires_in` of `n` seconds, a clock that does not run backwards and
a new expiry that is a representable date: after the gate the session snapshot
is the updated durable record; its access token expiry is the clock reading of
the refresh plus `n * 1000`, later than now; its `refreshToken` and
`refreshTokenExpiresAt` are those of the durable record before the request;
and the gate calls `next`. -/
theorem gate_refresh_success (env : Env) (i : GateInputs) (u : SessionUser) (r : User)
    (repo : List User) (e n : Int) (s : Nat) (ts : TokenSet)
    (he : u.accessTokenExpiresAt = .date (some e)) (hlt : e < i.now)
    (hr : findOne repo u.googleId = some r)
    (hresp : i.refreshTokenResponse = .response s (.json ts))
    (hn : ts.expires_in = some n) (hpos : 0 < n) (hclock : i.now ≤ i.nowRefresh)
    (hrange : -maxTimeValue ≤ i.nowRefresh + n * 1000 ∧
      i.nowRefresh + n * 1000 ≤ maxTimeValue) :
    ∃ r1, (gate env i (some u) repo).sessionUser = some (SessionUser.ofUser r1) ∧
      findOne (gate env i (some u) repo).repo u.googleId = some r1 ∧
      r1.accessTokenExpiresAt = some (i.nowRefresh + n * 1000) ∧
      i.now < i.nowRefresh + n * 1000 ∧
      r1.accessToken = supplied (ts.access_token.map some) r.accessToken ∧
      r1.refreshToken = r.refreshToken ∧
      r1.refreshTokenExpiresAt = r.refreshTokenExpiresAt ∧
      nextCalls (gate env i (some u) repo).trace = 1 ∧
      responses (gate env i (some u) repo).trace = [] := by
  have h := dateGt_of_lt _ _ _ he hlt
  have hx := refreshedExpiry_in_range i ts n hn hrange
  obtain ⟨repo1, hf, h2⟩ := findOneAndUpdate_found repo u.googleId
    (refreshUpdate ts.access_token (refreshedExpiry i ts)) false r
    (by simp [castable, refreshUpdate, hx]) hr
  rw [gate_expired_json env i u repo s ts h hresp, hf]
  refine ⟨_, rfl, h2, ?_, by omega, rfl, rfl, rfl, rfl, rfl⟩
  simp [applyUpdate, refreshUpdate, supplied, hx]

/-- For a `Date` expiry, a clock that does not run backwards and a provider
whose token sets declare a positive `expires_in`: whenever the gate calls
`next`, the object in `req.user` has `now <= accessTokenExpiresAt`; without a
refresh it is the snapshot itself, and after a refresh the expiry is strictly
later than now and than the clock reading of the refresh. -/
theorem gate_next_credential (env : Env) (i : GateInputs) (u : SessionUser)
    (repo : List User) (e : Int) (he : u.accessTokenExpiresAt = .date (some e))
    (hnext : Event.next ∈ (gate env i (some u) repo).trace)
    (hpos : ∀ s ts n, i.refreshTokenResponse = .response s (.json ts) →
      ts.expires_in = some n → 0 < n)
    (hclock : i.now ≤ i.nowRefresh) :
    ∃ v e1, (gate env i (some u) repo).readUser = some v ∧
      v.accessTokenExpiresAt = .date (some e1) ∧ i.now ≤ e1 ∧
      ((requests (gate env i (some u) repo).trace = [] ∧ v = u) ∨
       (requests (gate env i (some u) repo).trace = [refreshTokenRequest env u] ∧
        i.now < e1 ∧ i.nowRefresh < e1)) := by
  cases h : dateGt i.now u.accessTokenExpiresAt with
  | false =>
    rw [gate_valid_eq env i u repo h]
    refine ⟨u, e, rfl, he, ?_, Or.inl ⟨rfl, rfl⟩⟩
    simp [dateGt, he] at h
    exact h
  | true =>
    rcases hresp : i.refreshTokenResponse with _ | ⟨s, _ | _ | ts⟩
    · exfalso
      revert hnext
      simp [gate, authenticate, setUser, Req.incoming, Req.readUser, h, hresp, Req.log,
        Req.send]
    · exfalso
      revert hnext
      simp [gate, authenticate, setUser, Req.incoming, Req.readUser, h, hresp, Req.log,
        Req.send]
    · exfalso
      revert hnext
      simp [gate, authenticate, setUser, Req.incoming, Req.readUser, h, hresp, Req.log,
        Req.send]
    · rw [gate_expired_json env i u repo s ts h hresp] at hnext ⊢
      cases hf : findOneAndUpdate repo u.googleId
          (refreshUpdate ts.access_token (refreshedExpiry i ts)) false with
      | error err =>
        rw [hf] at hnext
        simp at hnext
      | ok p =>
        obtain ⟨user, repo1⟩ := p
        have hc : castable (refreshUpdate ts.access_token (refreshedExpiry i ts)) = true := by
          by_contra hc
          simp [findOneAndUpdate, hc] at hf
        obtain ⟨n, hn, hx⟩ := refreshedExpiry_of_castable i ts _ hc
        have hn0 := hpos s ts n hresp hn
        refine ⟨_, i.nowRefresh + n * 1000, rfl, ?_, by omega,
          Or.inr ⟨rfl, by omega, by omega⟩⟩
        simp [hx]

/-! ## The login callback -/

theorem setSessionUser_sessionUser (req : Req) (v : Option SessionUser) :
    (req.setSessionUser v).sessionUser = v := by
  unfold Req.setSessionUser
  cases req.user with
  | null => rfl
  | detached u => rfl
  | session => cases req.sessionUser <;> rfl

theorem setSessionUser_repo (req : Req) (v : Option SessionUser) :
    (req.setSessionUser v).repo = req.repo := by
  unfold Req.setSessionUser
  cases req.user with
  | null => rfl
  | detached u => rfl
  | session => cases req.sessionUser <;> rfl

theorem setSessionUser_trace (req : Req) (v : Option SessionUser) :
    (req.setSessionUser v).trace = req.trace := by
  unfold Req.setSessionUser
  cases req.user with
  | null => rfl
  | detached u => rfl
  | session => cases req.sessionUser <;> rfl

theorem setUser_fields (su : Option SessionUser) (repo : List User) :
    (setUser (Req.incoming su repo)).sessionUser = su ∧
    (setUser (Req.incoming su repo)).repo = repo ∧
    (setUser (Req.incoming su repo)).trace = [] := by
  cases su <;> exact ⟨rfl, rfl, rfl⟩

theorem login_unparsed (env : Env) (i : CallbackInputs) (su : Option SessionUser)
    (repo : List User) (hfail : i.tokenResponse.noValue = true) :
    (login env i su repo).sessionUser = su ∧ (login env i su repo).repo = repo ∧
    (login env i su repo).trace =
      [.request (tokenRequest env i.code), .respond (.send 500 "Internal Server Error")] := by
  obtain ⟨h1, h2, h3⟩ := setUser_fields su repo
  rcases hf : i.tokenResponse with _ | ⟨s, _ | _ | ts⟩
  · simp [login, callback, hf, Req.log, Req.send, h1, h2, h3]
  · simp [login, callback, hf, Req.log, Req.send, h1, h2, h3]
  · simp [login, callback, hf, Req.log, Req.send, h1, h2, h3]
  · simp [hf, HttpResult.noValue] at hfail

theorem login_id_unparsed (env : Env) (i : CallbackInputs) (su : Option SessionUser)
    (repo : List User) (s : Nat) (ts : TokenSet)
    (hresp : i.tokenResponse = .response s (.json ts))
    (hfail : i.idTokenResponse.noValue = true) :
    (login env i su repo).sessionUser = su ∧ (login env i su repo).repo = repo ∧
    (login env i su repo).trace =
      [.request (tokenRequest env i.code), .request (idTokenRequest ts.id_token),
       .respond (.send 500 "Internal Server Error")] := by
  obtain ⟨h1, h2, h3⟩ := setUser_fields su repo
  rcases hf : i.idTokenResponse with _ | ⟨s2, _ | _ | payload⟩
  · simp [login, callback, hresp, hf, Req.log, Req.send, h1, h2, h3]
  · simp [login, callback, hresp, hf, Req.log, Req.send, h1, h2, h3]
  · simp [login, callback, hresp, hf, Req.log, Req.send, h1, h2, h3]
  · simp [hf, HttpResult.noValue] at hfail

theorem login_parsed (env : Env) (i : CallbackInputs) (su : Option SessionUser)
    (repo : List User) (s s2 : Nat) (ts : TokenSet) (payload : IdPayload)
    (hresp : i.tokenResponse = .response s (.json ts))
    (hid : i.idTokenResponse = .response s2 (.json payload)) :
    (∀ err, findOneAndUpdate repo payload.sub
        (newUser ts payload (callbackExpiry i ts) (callbackRefreshExpiry i)) true = .error err →
      (login env i su repo).sessionUser = su ∧ (login env i su repo).repo = repo ∧
      (login env i su repo).trace =
        [.request (tokenRequest env i.code), .request (idTokenRequest ts.id_token),
         .findOneAndUpdate payload.sub
           (newUser ts payload (callbackExpiry i ts) (callbackRefreshExpiry i)) true,
         .respond (.send 500 "Internal Server Error")]) ∧
    (∀ user repo1, findOneAndUpdate repo payload.sub
        (newUser ts payload (callbackExpiry i ts) (callbackRefreshExpiry i)) true =
          .ok (user, repo1) →
      (login env i su repo).sessionUser = user.map SessionUser.ofUser ∧
      (login env i su repo).repo = repo1 ∧
      (login env i su repo).trace =
        [.request (tokenRequest env i.code), .request (idTokenRequest ts.id_token),
         .findOneAndUpdate payload.sub
           (newUser ts payload (callbackExpiry i ts) (callbackRefreshExpiry i)) true,
         .respond (.redirect "/profile")]) := by
  obtain ⟨h1, h2, h3⟩ := setUser_fields su repo
  constructor
  · intro err hf
    simp [login, callback, hresp, hid, Req.log, Req.send, h1, h2, h3, hf]
  · intro user repo1 hf
    simp [login, callback, hresp, hid, Req.log, h2, h3, hf, setSessionUser_sessionUser,
      setSessionUser_repo, setSessionUser_trace]

theorem findOneAndUpdate_upsert (repo : List User) (googleId : Option String) (f : Update)
    (hc : castable f = true) :
    ∃ user repo1, findOneAndUpdate repo googleId f true = .ok (some user, repo1) ∧
      findOne repo1 googleId = some user ∧
      user = applyUpdate f ((findOne repo googleId).getD (blankUser googleId)) := by
  cases hr : findOne repo googleId with
  | some r =>
    obtain ⟨repo1, h1, h2⟩ := findOneAndUpdate_found repo googleId f true r hc hr
    exact ⟨_, repo1, h1, h2, rfl⟩
  | none =>
    refine ⟨applyUpdate f (blankUser googleId),
      repo ++ [applyUpdate f (blankUser googleId)], ?_, ?_, rfl⟩
    · unfold findOneAndUpdate
      rw [if_pos hc, updateFirst_of_findOne_none googleId f repo hr]
      rfl
    · exact findOne_append_new googleId repo _ hr rfl

theorem callbackExpiry_none (i : CallbackInputs) (ts : TokenSet) (h : ts.expires_in = none) :
    callbackExpiry i ts = none := by
  simp [callbackExpiry, toNumber, jsMul, jsAdd, newDate, h]

theorem callbackExpiry_in_range (i : CallbackInputs) (ts : TokenSet) (n : Int)
    (hn : ts.expires_in = some n)
    (hr : -maxTimeValue ≤ i.now + n * 1000 ∧ i.now + n * 1000 ≤ maxTimeValue) :
    callbackExpiry i ts = some (i.now + n * 1000) := by
  simp [callbackExpiry, toNumber, jsMul, jsAdd, newDate, hn, hr]

theorem callbackRefreshExpiry_in_range (i : CallbackInputs)
    (hr : -maxTimeValue ≤ i.nowRefresh + 31536000000 ∧
      i.nowRefresh + 31536000000 ≤ maxTimeValue) :
    callbackRefreshExpiry i = some (i.nowRefresh + 31536000000) := by
  simp [callbackRefreshExpiry, jsAdd, newDate, hr]

/-- C5 fails for a JSON body without `access_token`: the callback performs
the upsert, stores a record without access token, sets the session snapshot
to it and redirects to `/profile`. -/
theorem callback_missing_access_token_succeeds :
    responses (login sampleEnv loginWithoutAccessToken none []).trace =
      [.redirect "/profile"] ∧
    repoCalls (login sampleEnv loginWithoutAccessToken none []).trace =
      [.findOneAndUpdate (some "g-1")
        { displayName := some "Alice", email := some "alice@example.com",
          accessToken := none, refreshToken := some "rt-1",
          accessTokenExpiresAt := some (some 3605000),
          refreshTokenExpiresAt := some (some 31536005001) } true] ∧
    (login sampleEnv loginWithoutAccessToken none []).sessionUser =
      some (SessionUser.ofUser
        { googleId := some "g-1", displayName := some "Alice",
          email := some "alice@example.com", accessToken := none,
          refreshToken := some "rt-1", accessTokenExpiresAt := some 3605000,
          refreshTokenExpiresAt := some 31536005001 }) ∧
    (login sampleEnv loginWithoutAccessToken none []).repo =
      [{ googleId := some "g-1", displayName := some "Alice",
         email := some "alice@example.com", accessToken := none,
         refreshToken := some "rt-1", accessTokenExpiresAt := some 3605000,
         refreshTokenExpiresAt := some 31536005001 }] := by
  decide

/-- The status code is not looked at: an exchange answer with status 400 and
a complete token set logs the user in. -/
theorem callback_ignores_status :
    responses (login sampleEnv loginStatus400 none []).trace = [.redirect "/profile"] := by
  decide

/-- C5 as amended: when the exchange request errors, or its response body,
whatever the status code, is not JSON, is the JSON value `null`, or is JSON
without `expires_in`, the callback responds 500, stores nothing and leaves
`req.session.user` as it was.  `User.findOneAndUpdate` is not called when the
exchange gives no JSON value, where the callback stops after the exchange
request, nor when the tokeninfo request gives none; for a body without
`expires_in` followed by a parsed tokeninfo answer the upsert is attempted
once, with an Invalid Date as access token expiry, and rejected. -/
theorem callback_exchange_failure (env : Env) (i : CallbackInputs)
    (su : Option SessionUser) (repo : List User)
    (hfail : i.tokenResponse = .error ∨
      (∃ s, i.tokenResponse = .response s .notJson) ∨
      (∃ s, i.tokenResponse = .response s .jsonNull) ∨
      (∃ s ts, i.tokenResponse = .response s (.json ts) ∧ ts.expires_in = none)) :
    responses (login env i su repo).trace = [.send 500 "Internal Server Error"] ∧
    (login env i su repo).sessionUser = su ∧
    (login env i su repo).repo = repo ∧
    ((i.tokenResponse.noValue = true ∧
      (login env i su repo).trace =
        [.request (tokenRequest env i.code),
         .respond (.send 500 "Internal Server Error")]) ∨
     (∃ s ts, i.tokenResponse = .response s (.json ts) ∧ ts.expires_in = none ∧
      i.idTokenResponse.noValue = true ∧
      (login env i su repo).trace =
        [.request (tokenRequest env i.code), .request (idTokenRequest ts.id_token),
         .respond (.send 500 "Internal Server Error")]) ∨
     (∃ s ts s2 payload, i.tokenResponse = .response s (.json ts) ∧
      ts.expires_in = none ∧ i.idTokenResponse = .response s2 (.json payload) ∧
      findOneAndUpdate repo payload.sub
        (newUser ts payload none (callbackRefreshExpiry i)) true = .error .castError ∧
      (login env i su repo).trace =
        [.request (tokenRequest env i.code), .request (idTokenRequest ts.id_token),
         .findOneAndUpdate payload.sub
           (newUser ts payload none (callbackRefreshExpiry i)) true,
         .respond (.send 500 "Internal Server Error")])) := by
  have unparsed : i.tokenResponse.noValue = true →
      responses (login env i su repo).trace = [.send 500 "Internal Server Error"] ∧
      (login env i su repo).sessionUser = su ∧
      (login env i su repo).repo = repo ∧
      ((i.tokenResponse.noValue = true ∧
        (login env i su repo).trace =
          [.request (tokenRequest env i.code),
           .respond (.send 500 "Internal Server Error")]) ∨
       (∃ s ts, i.tokenResponse = .response s (.json ts) ∧ ts.expires_in = none ∧
        i.idTokenResponse.noValue = true ∧
        (login env i su repo).trace =
          [.request (tokenRequest env i.code), .request (idTokenRequest ts.id_token),
           .respond (.send 500 "Internal Server Error")]) ∨
       (∃ s ts s2 payload, i.tokenResponse = .response s (.json ts) ∧
        ts.expires_in = none ∧ i.idTokenResponse = .response s2 (.json payload) ∧
        findOneAndUpdate repo payload.sub
          (newUser ts payload none (callbackRefreshExpiry i)) true = .error .castError ∧
        (login env i su repo).trace =
          [.request (tokenRequest env i.code), .request (idTokenRequest ts.id_token),
           .findOneAndUpdate payload.sub
             (newUser ts payload none (callbackRefreshExpiry i)) true,
           .respond (.send 500 "Internal Server Error")])) := by
    intro h
    obtain ⟨h1, h2, h3⟩ := login_unparsed env i su repo h
    rw [h3]
    exact ⟨rfl, h1, h2, Or.inl ⟨h, rfl⟩⟩
  rcases hfail with h | ⟨s, h⟩ | ⟨s, h⟩ | ⟨s, ts, hresp, hn⟩
  · exact unparsed (by rw [h]; rfl)
  · exact unparsed (by rw [h]; rfl)
  · exact unparsed (by rw [h]; rfl)
  · cases hv : i.idTokenResponse.noValue with
    | true =>
      obtain ⟨h1, h2, h3⟩ := login_id_unparsed env i su repo s ts hresp hv
      rw [h3]
      exact ⟨rfl, h1, h2, Or.inr (Or.inl ⟨s, ts, hresp, hn, rfl, rfl⟩)⟩
    | false =>
      rcases hid : i.idTokenResponse with _ | ⟨s2, _ | _ | payload⟩
      · simp [hid, HttpResult.noValue] at hv
      · simp [hid, HttpResult.noValue] at hv
      · simp [hid, HttpResult.noValue] at hv
      · have hx := callbackExpiry_none i ts hn
        have hf : findOneAndUpdate repo payload.sub
            (newUser ts payload (callbackExpiry i ts) (callbackRefreshExpiry i)) true =
            .error .castError := by
          simp [findOneAndUpdate, castable, newUser, hx]
        obtain ⟨h1, h2, h3⟩ :=
          (login_parsed env i su repo s s2 ts payload hresp hid).1 _ hf
        rw [hx] at hf h3
        rw [h3]
        exact ⟨rfl, h1, h2, Or.inr (Or.inr ⟨s, ts, s2, payload, hresp, hn, rfl, hf, rfl⟩)⟩

theorem callback_exchange_failure_witness :
    responses (login sampleEnv loginRejected none [alice]).trace =
      [.send 500 "Internal Server Error"] ∧
    (login sampleEnv loginRejected none [alice]).sessionUser = none ∧
    (login sampleEnv loginRejected none [alice]).repo = [alice] ∧
    ((loginRejected.tokenResponse.noValue = true ∧
      (login sampleEnv loginRejected none [alice]).trace =
        [.request (tokenRequest sampleEnv loginRejected.code),
         .respond (.send 500 "Internal Server Error")]) ∨
     (∃ s ts, loginRejected.tokenResponse = .response s (.json ts) ∧
      ts.expires_in = none ∧ loginRejected.idTokenResponse.noValue = true ∧
      (login sampleEnv loginRejected none [alice]).trace =
        [.request (tokenRequest sampleEnv loginRejected.code),
         .request (idTokenRequest ts.id_token),
         .respond (.send 500 "Internal Server Error")]) ∨
     (∃ s ts s2 payload, loginRejected.tokenResponse = .response s (.json ts) ∧
      ts.expires_in = none ∧
      loginRejected.idTokenResponse = .response s2 (.json payload) ∧
      findOneAndUpdate [alice] payload.sub
        (newUser ts payload none (callbackRefreshExpiry loginRejected)) true =
          .error .castError ∧
      (login sampleEnv loginRejected none [alice]).trace =
        [.request (tokenRequest sampleEnv loginRejected.code),
         .request (idTokenRequest ts.id_token),
         .findOneAndUpdate payload.sub
           (newUser ts payload none (callbackRefreshExpiry loginRejected)) true,
         .respond (.send 500 "Internal Server Error")])) :=
  callback_exchange_failure sampleEnv loginRejected none [alice]
    (Or.inr (Or.inr (Or.inr ⟨400, _, rfl, rfl⟩)))

/-- C7: for every exchange answer that is a token set declaring
`expires_in = n`, followed by a parsed tokeninfo answer (the expiries being
representable dates), the callback upserts exactly once, with
`accessTokenExpiresAt` equal to the clock reading taken when the expiry is
computed plus `n * 1000`; the record the repository then holds for the subject
has that expiry, and the session snapshot is that very record, holding the
same expiry as a `Date`. -/
theorem callback_expiry (env : Env) (i : CallbackInputs) (su : Option SessionUser)
    (repo : List User) (s s2 : Nat) (ts : TokenSet) (payload : IdPayload) (n : Int)
    (hresp : i.tokenResponse = .response s (.json ts)) (hn : ts.expires_in = some n)
    (hid : i.idTokenResponse = .response s2 (.json payload))
    (hrange : -maxTimeValue ≤ i.now + n * 1000 ∧ i.now + n * 1000 ≤ maxTimeValue)
    (hrange2 : -maxTimeValue ≤ i.nowRefresh + 31536000000 ∧
      i.nowRefresh + 31536000000 ≤ maxTimeValue) :
    ∃ user, (login env i su repo).sessionUser = some (SessionUser.ofUser user) ∧
      findOne (login env i su repo).repo payload.sub = some user ∧
      user.accessTokenExpiresAt = some (i.now + n * 1000) ∧
      (SessionUser.ofUser user).accessTokenExpiresAt = .date (some (i.now + n * 1000)) ∧
      repoCalls (login env i su repo).trace =
        [.findOneAndUpdate payload.sub
          (newUser ts payload (some (i.now + n * 1000))
            (some (i.nowRefresh + 31536000000))) true] ∧
      responses (login env i su repo).trace = [.redirect "/profile"] := by
  have hx := callbackExpiry_in_range i ts n hn hrange
  have hy := callbackRefreshExpiry_in_range i hrange2
  obtain ⟨user, repo1, hf, hfind, huser⟩ := findOneAndUpdate_upsert repo payload.sub
    (newUser ts payload (callbackExpiry i ts) (callbackRefreshExpiry i))
    (by simp [castable, newUser, hx, hy])
  obtain ⟨h1, h2, h3⟩ :=
    (login_parsed env i su repo s s2 ts payload hresp hid).2 (some user) repo1 hf
  rw [h1, h2, h3, hx, hy]
  have hexp : user.accessTokenExpiresAt = some (i.now + n * 1000) := by
    rw [huser]
    simp [applyUpdate, newUser, supplied, hx]
  refine ⟨user, rfl, hfind, hexp, ?_, rfl, rfl⟩
  simp [SessionUser.ofUser, DateValue.ofField, hexp]

theorem callback_expiry_witness :
    ∃ user, (login sampleEnv loginAbc123 none []).sessionUser =
        some (SessionUser.ofUser user) ∧
      findOne (login sampleEnv loginAbc123 none []).repo (some "g-1") = some user ∧
      user.accessTokenExpiresAt = some (loginAbc123.now + 3600 * 1000) ∧
      (SessionUser.ofUser user).accessTokenExpiresAt =
        .date (some (loginAbc123.now + 3600 * 1000)) ∧
      repoCalls (login sampleEnv loginAbc123 none []).trace =
        [.findOneAndUpdate (some "g-1")
          (newUser
            { access_token := some "at-1", refresh_token := some "rt-1",
              expires_in := some 3600, id_token := some "idt-1" }
            { sub := some "g-1", name := some "Alice", email := some "alice@example.com" }
            (some (loginAbc123.now + 3600 * 1000))
            (some (loginAbc123.nowRefresh + 31536000000))) true] ∧
      responses (login sampleEnv loginAbc123 none []).trace = [.redirect "/profile"] :=
  callback_expiry sampleEnv loginAbc123 none [] 200 200
    { access_token := some "at-1", refresh_token := some "rt-1",
      expires_in := some 3600, id_token := some "idt-1" }
    { sub := some "g-1", name := some "Alice", email := some "alice@example.com" }
    3600 rfl rfl rfl (by decide) (by decide)

/-! ## Idempotence of the upsert -/

theorem supplied_idem {α : Type} (new : Option α) (old : α) :
    supplied new (supplied new old) = supplied new old := by
  cases new <;> rfl

theorem applyUpdate_idem (f : Update) (u : User) :
    applyUpdate f (applyUpdate f u) = applyUpdate f u := by
  simp [applyUpdate, supplied_idem]

theorem updateFirst_fixed (googleId : Option String) (f : Update) :
    ∀ (repo : List User) (r : User), findOne repo googleId = some r → applyUpdate f r = r →
      updateFirst googleId f repo = some (r, repo) := by
  intro repo
  induction repo with
  | nil => intro r h; simp [findOne] at h
  | cons u us ih =>
    intro r h hfix
    by_cases hu : u.googleId = googleId
    · have hr : u = r := by simpa [findOne, List.find?_cons, hu] using h
      subst hr
      simp [updateFirst, hu, hfix]
    · have h1 : findOne us googleId = some r := by
        simpa [findOne, List.find?_cons, hu] using h
      simp [updateFirst, hu, ih r h1 hfix]

theorem supplied_unchanged {α : Type} (new : Option α) (old : α) :
    new.isSome = true ∨ supplied new old = old := by
  cases new with
  | none => exact Or.inr rfl
  | some v => exact Or.inl rfl

theorem supplied_map_unchanged (new : Option String) (old : Option String) :
    new.isSome = true ∨ supplied (new.map some) old = old := by
  cases new with
  | none => exact Or.inr rfl
  | some v => exact Or.inl rfl

/-- C10: applying `User.findOneAndUpdate` with the same key and fields twice
in succession: either the fields hold an Invalid Date and the call is
rejected, storing nothing; or the first application succeeds, the second
application on the state it leaves succeeds as well, returns the same record
and leaves the same state, the returned record is the one stored for the key,
and when a record for the key existed already, every field of it that the
update does not supply is unchanged (the key always is). -/
theorem findOneAndUpdate_idempotent (repo : List User) (googleId : Option String)
    (f : Update) (upsert : Bool) :
    (castable f = false ∧ findOneAndUpdate repo googleId f upsert = .error .castError) ∨
    (∃ user repo1, findOneAndUpdate repo googleId f upsert = .ok (user, repo1) ∧
      findOneAndUpdate repo1 googleId f upsert = .ok (user, repo1) ∧
      findOne repo1 googleId = user ∧
      (findOne repo googleId = none ∨
        ∃ old r, findOne repo googleId = some old ∧ user = some r ∧
          r.googleId = old.googleId ∧
          (f.displayName.isSome = true ∨ r.displayName = old.displayName) ∧
          (f.email.isSome = true ∨ r.email = old.email) ∧
          (f.accessToken.isSome = true ∨ r.accessToken = old.accessToken) ∧
          (f.refreshToken.isSome = true ∨ r.refreshToken = old.refreshToken) ∧
          (f.accessTokenExpiresAt.isSome = true ∨
            r.accessTokenExpiresAt = old.accessTokenExpiresAt) ∧
          (f.refreshTokenExpiresAt.isSome = true ∨
            r.refreshTokenExpiresAt = old.refreshTokenExpiresAt))) := by
  cases hc : castable f with
  | false =>
    left
    exact ⟨rfl, by simp [findOneAndUpdate, hc]⟩
  | true =>
    right
    cases hr : findOne repo googleId with
    | some old =>
      obtain ⟨repo1, h1, h2⟩ := findOneAndUpdate_found repo googleId f upsert old hc hr
      refine ⟨some (applyUpdate f old), repo1, h1, ?_, h2, Or.inr ⟨old, applyUpdate f old,
        rfl, rfl, rfl, supplied_map_unchanged _ _, supplied_map_unchanged _ _,
        supplied_map_unchanged _ _, supplied_map_unchanged _ _, supplied_unchanged _ _,
        supplied_unchanged _ _⟩⟩
      unfold findOneAndUpdate
      rw [if_pos hc, updateFirst_fixed googleId f repo1 _ h2 (applyUpdate_idem f old)]
    | none =>
      have hu := updateFirst_of_findOne_none googleId f repo hr
      cases upsert with
      | true =>
        have hnew : findOne (repo ++ [applyUpdate f (blankUser googleId)]) googleId =
            some (applyUpdate f (blankUser googleId)) :=
          findOne_append_new googleId repo _ hr rfl
        refine ⟨some (applyUpdate f (blankUser googleId)),
          repo ++ [applyUpdate f (blankUser googleId)], ?_, ?_, hnew, Or.inl rfl⟩
        · unfold findOneAndUpdate
          rw [if_pos hc, hu]
          rfl
        · unfold findOneAndUpdate
          rw [if_pos hc, updateFirst_fixed googleId f _ _ hnew (applyUpdate_idem f _)]
      | false =>
        refine ⟨none, repo, ?_, ?_, hr, Or.inl rfl⟩ <;>
        · unfold findOneAndUpdate
          rw [if_pos hc, hu]
          rfl

end OAuthApi
